import Mathlib

/-!
Verification of the promptwars backend services against their specification.

The Python services are shallowly embedded as executable Lean definitions:
Python `int` becomes `Int`/`Nat`, Python `float` literals (all simple decimal
constants in this code) become exact rationals `ℚ`, dictionaries become total
functions with the default of the dictionary, and ambient effects (the random draw
of `random.random()`, the current date of `datetime.now()`) become explicit
injected parameters.  Fallible code paths return values describing the error,
mirroring the services, which catch their exceptions internally.
-/

namespace PromptWars

/-! ## Morale calculator (`backend/app/services/morale_calculator.py`) -/

/-- Embeds `MORALE_EVENTS.get(event_type, 0)`: base morale change per event type,
fourteen entries, default 0. -/
def MORALE_EVENTS : String → Int
  | "capture_enemy" => 15
  | "friendly_captured" => -10
  | "endangered" => -8
  | "protected" => 10
  | "blunder" => -5
  | "idle" => -5
  | "compliment" => 5
  | "promotion" => 30
  | "good_position" => 5
  | "clever_tactic" => 10
  | "game_start" => 0
  | "persuasion_success" => 5
  | "persuasion_fail" => -3
  | "player_lied" => -15
  | _ => 0

/-- A piece personality dictionary: the only field read by the morale
calculator is the optional `morale_modifiers` sub-dictionary (event type to
override delta).  A personality dict lacking the key is `⟨none⟩`; the absent
or empty (falsy) personality argument is modelled by `Option.none` at use
sites. -/
structure Personality where
  morale_modifiers : Option (List (String × Int))

/-- Embeds `MoraleCalculator.calculate_morale_change`: base delta from
`MORALE_EVENTS`, fully replaced by the personality override when its
`morale_modifiers` map names the event type.  The `current_morale` argument
is accepted and ignored, as in the source. -/
def calculate_morale_change (eventType : String) (currentMorale : Int)
    (personality : Option Personality) : Int :=
  let baseChange := MORALE_EVENTS eventType
  match personality with
  | some p =>
    match p.morale_modifiers with
    | some modifiers =>
      match modifiers.lookup eventType with
      | some v => v
      | none => baseChange
    | none => baseChange
  | none => baseChange

/-- Embeds `MoraleCalculator.apply_morale_change`: `max(0, min(100, current + change))`. -/
def apply_morale_change (currentMorale : Int) (change : Int) : Int :=
  max 0 (min 100 (currentMorale + change))

/-- Embeds `MoraleCalculator.get_obedience_rate`: base obedience probability per
morale tier. -/
def get_obedience_rate (morale : Int) : ℚ :=
  if 80 ≤ morale then 0.95
  else if 60 ≤ morale then 0.80
  else if 40 ≤ morale then 0.55
  else if 20 ≤ morale then 0.30
  else 0.10

/-- The `personality_modifiers.get(piece_type, 0)` dictionary lookup inside
`will_piece_obey` (dict order rook, knight, bishop, pawn, queen, king;
lookup order is irrelevant since the keys are distinct). -/
def pieceObedienceModifier (pieceType : String) : ℚ :=
  if pieceType = "rook" then 0.10
  else if pieceType = "knight" then -0.05
  else if pieceType = "bishop" then 0.0
  else if pieceType = "pawn" then 0.05
  else if pieceType = "queen" then -0.10
  else if pieceType = "king" then 0.15
  else 0

/-- Embeds `MoraleCalculator.will_piece_obey`, with the ambient `random.random()`
draw injected as the explicit `draw` argument. -/
def will_piece_obey (draw : ℚ) (morale : Int) (isRisky : Bool)
    (pieceType : String) : Bool :=
  let baseRate := get_obedience_rate morale
  let baseRate := if isRisky then baseRate * 0.7 else baseRate
  let baseRate := baseRate + pieceObedienceModifier pieceType
  if 90 ≤ morale ∧ isRisky = false then true
  else decide (draw < baseRate)

/-- One morale event of a sequence: the event type together with the acting
personality, fed through `calculate_morale_change` and then
`apply_morale_change`. -/
def morale_step (m : Int) (e : String × Option Personality) : Int :=
  apply_morale_change m (calculate_morale_change e.1 m e.2)

/-- The trace of morale values produced by applying a sequence of morale
events to an initial morale (initial value included). -/
def morale_trace (init : Int) : List (String × Option Personality) → List Int
  | [] => [init]
  | e :: es => init :: morale_trace (morale_step init e) es

/-! ## Persuasion engine (`backend/app/services/persuasion_engine.py`) -/

/-- Containment of one character list in another, modelling the Python
substring test `kw in argument_lower`.  `subOccursAt n h` checks that `n` is
an initial segment of `h`. -/
def subOccursAt : List Char → List Char → Bool
  | [], _ => true
  | _ :: _, [] => false
  | c :: cs, d :: ds => c == d && subOccursAt cs ds

/-- Tests whether `needle` occurs as a contiguous substring of `hay`. -/
def hasSub (needle : List Char) : List Char → Bool
  | [] => needle.isEmpty
  | d :: ds => subOccursAt needle (d :: ds) || hasSub needle ds

/-- Python `argument.lower()`, as the character list of the lowered string
(`str.lower` maps each character to lower case; the embedded arguments are
ASCII, where `Char.toLower` agrees with Python). -/
def lowerChars (s : String) : List Char :=
  s.toList.map Char.toLower

/-- Substring containment: `containsSub h n` models Python `n in h` for a
hay already given as a character list. -/
def containsSub (hay : List Char) (needle : String) : Bool :=
  hasSub needle.toList hay

/-- The number of words of `str.split()`: maximal runs of non-whitespace
characters.  The flag records whether the previous character was inside a
word. -/
def wordCountAux : Bool → List Char → Nat
  | _, [] => 0
  | inWord, c :: cs =>
    if c.isWhitespace then wordCountAux false cs
    else (if inWord then 0 else 1) + wordCountAux true cs

/-- Embeds `len(argument.split())`. -/
def wordCount (s : String) : Nat :=
  wordCountAux false s.toList

/-- Embeds `BASE_RATES` iterated in insertion order with default `0.45`
(`PersuasionEngine.get_base_rate`). -/
def get_base_rate (morale : Int) : ℚ :=
  if 80 ≤ morale ∧ morale ≤ 100 then 0.90
  else if 60 ≤ morale ∧ morale ≤ 79 then 0.70
  else if 40 ≤ morale ∧ morale ≤ 59 then 0.45
  else if 20 ≤ morale ∧ morale ≤ 39 then 0.25
  else if 0 ≤ morale ∧ morale ≤ 19 then 0.10
  else 0.45

/-- Embeds `PERSONALITY_KEYWORDS.get(piece_type, [])`. -/
def PERSONALITY_KEYWORDS : String → List String
  | "pawn" => ["team", "sacrifice", "together", "duty", "greater good", "promotion", "advance"]
  | "knight" => ["glory", "brave", "heroic", "adventure", "charge", "honor", "flashy"]
  | "bishop" => ["logic", "tactical", "strategy", "position", "calculated", "smart", "reason"]
  | "rook" => ["duty", "order", "discipline", "defend", "hold", "strong", "fortress"]
  | "queen" => ["power", "protect", "important", "safe", "retreat", "value", "worth"]
  | "king" => ["survive", "protect", "castle", "safety", "kingdom", "careful"]
  | _ => []

/-- Embeds `PersuasionEngine.calculate_logic_score` (0 to 25). -/
def calculate_logic_score (argument : String) (isClaimAccurate : Bool)
    (isRisky : Bool) : Int :=
  let score : Int := 0 + 5
  let score := if isClaimAccurate then score + 10 else score - 5
  let wc := wordCount argument
  let score := if 10 ≤ wc then score + 5 else if 5 ≤ wc then score + 3 else score
  let score :=
    if isRisky &&
        (["risky", "dangerous", "sacrifice", "trade"].any
          (fun w => containsSub (lowerChars argument) w)) then
      score + 5
    else score
  max 0 (min 25 score)

/-- Embeds `PersuasionEngine.calculate_personality_match` (2 to 15). -/
def calculate_personality_match (argument : String) (pieceType : String) : Int :=
  let keywords := PERSONALITY_KEYWORDS pieceType
  let argumentLower := lowerChars argument
  let hits := (keywords.filter (fun kw => containsSub argumentLower kw)).length
  if 3 ≤ hits then 15
  else if 2 ≤ hits then 10
  else if 1 ≤ hits then 7
  else 2

/-- Embeds `PersuasionEngine.calculate_morale_modifier` (-20 to +20). -/
def calculate_morale_modifier (morale : Int) : Int :=
  if 80 ≤ morale then 20
  else if 60 ≤ morale then 10
  else if 40 ≤ morale then 0
  else if 20 ≤ morale then -10
  else -20

/-- Embeds `PersuasionEngine.calculate_trust_modifier` (-15 to +10). -/
def calculate_trust_modifier (trustHistory : ℚ) : Int :=
  if 0.8 ≤ trustHistory then 10
  else if 0.6 ≤ trustHistory then 5
  else if 0.4 ≤ trustHistory then 0
  else if 0.2 ≤ trustHistory then -8
  else -15

/-- Embeds `PersuasionEngine.calculate_urgency_factor` (0 to 10). -/
def calculate_urgency_factor (isCheck : Bool) (materialBalance : Int)
    (moveCount : Int) : Int :=
  let urgency : Int := if isCheck then 5 else 0
  let urgency :=
    urgency + (if materialBalance < -3 then 3
               else if materialBalance < 0 then 1 else 0)
  let urgency := urgency + (if 40 < moveCount then 2 else 0)
  min 10 urgency

/-- Python `round(x, 3)`: round to the nearest thousandth.  Every probability
produced by `evaluate_persuasion` in exact rational arithmetic is an integer
multiple of `1/1000`, so no rounding tie ever arises and the tie-breaking
convention is immaterial. -/
def round3 (q : ℚ) : ℚ :=
  ((round (q * 1000) : ℤ) : ℚ) / 1000

/-- The dictionary returned by `PersuasionEngine.evaluate_persuasion`. -/
structure PersuasionResult where
  success : Bool
  probability : ℚ
  logic_score : Int
  personality_match : Int
  morale_modifier : Int
  trust_modifier : Int
  urgency_factor : Int

/-- Embeds `PersuasionEngine.evaluate_persuasion`, with the ambient
`random.random()` draw injected as the explicit `draw` argument.  The success
roll uses the unrounded probability; the reported probability is rounded to
three decimals, as in the source. -/
def evaluate_persuasion (argument : String) (pieceType : String) (morale : Int)
    (isClaimAccurate : Bool) (isRisky : Bool) (trustHistory : ℚ)
    (isCheck : Bool) (materialBalance : Int) (moveCount : Int)
    (draw : ℚ) : PersuasionResult :=
  let base_rate := get_base_rate morale
  let logic_score := calculate_logic_score argument isClaimAccurate isRisky
  let personality_match := calculate_personality_match argument pieceType
  let morale_modifier := calculate_morale_modifier morale
  let trust_modifier := calculate_trust_modifier trustHistory
  let urgency_factor := calculate_urgency_factor isCheck materialBalance moveCount
  let total_bonus :=
    (logic_score : ℚ) / 25 * 0.25
    + (personality_match : ℚ) / 15 * 0.15
    + ((morale_modifier : ℚ) / 40 + 0.5) * 0.20
    + ((trust_modifier : ℚ) / 25 + 0.6) * 0.15
    + (urgency_factor : ℚ) / 10 * 0.10
  let probability := min 0.95 (max 0.05 (base_rate * 0.5 + total_bonus))
  { success := decide (draw < probability)
    probability := round3 probability
    logic_score := logic_score
    personality_match := personality_match
    morale_modifier := morale_modifier
    trust_modifier := trust_modifier
    urgency_factor := urgency_factor }

/-! ## AI rate limiter (`backend/app/services/ai_rate_limiter.py`) -/

/-- The three limits configured on `AIRateLimiter.__init__`. -/
structure RLConfig where
  max_calls_per_move : Nat
  max_calls_per_game : Nat
  daily_game_limit : Nat

/-- The constructor defaults: 5 calls per move, 200 per game, 50 games per
day. -/
def defaultRLConfig : RLConfig :=
  { max_calls_per_move := 5, max_calls_per_game := 200, daily_game_limit := 50 }

/-- The mutable state of the limiter.  The three `defaultdict`s become total
functions returning the dictionary default (0 or the empty set): reading a
missing key in a `defaultdict` observably equals reading a freshly created
default entry. -/
structure RLState where
  move_calls : String → Int → Nat
  game_calls : String → Nat
  daily_games : String → Finset String

/-- The state of a freshly constructed limiter. -/
def initialRLState : RLState :=
  { move_calls := fun _ _ => 0, game_calls := fun _ => 0, daily_games := fun _ => ∅ }

/-- The daily-limit decline message (an f-string in the source). -/
def dailyLimitMsg (cfg : RLConfig) : String :=
  "Daily AI game limit reached (" ++ toString cfg.daily_game_limit ++
    " games). Falling back to template responses."

/-- The per-move decline message. -/
def perMoveLimitMsg (cfg : RLConfig) (moveNumber : Int) : String :=
  "Per-move AI limit reached (" ++ toString cfg.max_calls_per_move ++
    " calls for move " ++ toString moveNumber ++ "). Using fallback response."

/-- The per-game decline message. -/
def perGameLimitMsg (cfg : RLConfig) : String :=
  "Per-game AI limit reached (" ++ toString cfg.max_calls_per_game ++
    " calls). Using fallback responses for remainder of game."

/-- Embeds `AIRateLimiter.check_and_increment`, with the ambient
`datetime.now().date().isoformat()` injected as the explicit `today`
argument.  Returns the `(is_allowed, error_message)` pair together with the
state after the call.  The nested daily guard of the source (`len >= limit` and
then `game_id not in set`, falling through otherwise) is the single
conjunction of the first branch. -/
def check_and_increment (cfg : RLConfig) (st : RLState) (today : String)
    (gameId : String) (moveNumber : Int) : (Bool × Option String) × RLState :=
  if cfg.daily_game_limit ≤ (st.daily_games today).card ∧
      gameId ∉ st.daily_games today then
    ((false, some (dailyLimitMsg cfg)), st)
  else if cfg.max_calls_per_move ≤ st.move_calls gameId moveNumber then
    ((false, some (perMoveLimitMsg cfg moveNumber)), st)
  else if cfg.max_calls_per_game ≤ st.game_calls gameId then
    ((false, some (perGameLimitMsg cfg)), st)
  else
    ((true, none),
      { move_calls := fun g m =>
          if g = gameId ∧ m = moveNumber then st.move_calls g m + 1
          else st.move_calls g m
        game_calls := fun g =>
          if g = gameId then st.game_calls g + 1 else st.game_calls g
        daily_games := fun d =>
          if d = today then insert gameId (st.daily_games d)
          else st.daily_games d })

/-- The allowed flag of a governance check under the default limits. -/
def rlAllowed (st : RLState) (today gameId : String) (moveNumber : Int) : Bool :=
  (check_and_increment defaultRLConfig st today gameId moveNumber).1.1

/-- The state after a governance check under the default limits. -/
def rlStep (st : RLState) (today gameId : String) (moveNumber : Int) : RLState :=
  (check_and_increment defaultRLConfig st today gameId moveNumber).2

/-- Runs `n` successive governance checks for the same `(game, move)` pair under
the default limits, returning the final state. -/
def rlIterate (today gameId : String) (moveNumber : Int) (st : RLState) :
    Nat → RLState
  | 0 => st
  | n + 1 => rlIterate today gameId moveNumber (rlStep st today gameId moveNumber) n

/-! ## Chess engine (`backend/app/services/chess_engine.py`)

The service wraps the third-party `python-chess` library.  The wrapper code
is embedded exactly; the library primitives it calls are modelled in two
layers:

* a parametric interface `ChessLib` listing the library operations the
  wrapper uses, so that the structural properties of `validate_move`
  (declines instead of exceptions, push/pop state restoration) hold for any
  implementation whose `pop` undoes `push` — which `python-chess`
  guarantees via its move stack;
* a concrete executable board model (`CPos`, `attackedBy`, `applyMove`)
  implementing the documented `python-chess` semantics — squares are
  integers `rank * 8 + file` with `a1 = 0`, `Board.turn` is the side to
  move and is toggled by `push`, `is_attacked_by(color, sq)` holds when any
  piece of `color` attacks `sq` under standard chess attack rules —
  used to evaluate the wrapper at concrete positions.
-/

/-- The six chess piece kinds. -/
inductive PieceT where
  | pawn | knight | bishop | rook | queen | king
  deriving DecidableEq

/-- Embeds `PIECE_TYPE_MAP`: the string name of a piece kind. -/
def pieceName : PieceT → String
  | .pawn => "pawn"
  | .knight => "knight"
  | .bishop => "bishop"
  | .rook => "rook"
  | .queen => "queen"
  | .king => "king"

/-- A piece: colour (`true` = white, as `chess.WHITE = True`) and kind. -/
abbrev CPiece := Bool × PieceT

/-- A board position: occupancy by square index (`rank * 8 + file`,
`a1 = 0` … `h8 = 63`) and the side to move. -/
structure CPos where
  occ : Nat → Option CPiece
  turn : Bool

/-- A `chess.Move`: source square, destination square, optional promotion
kind. -/
structure CMove where
  fromSq : Nat
  toSq : Nat
  promotion : Option PieceT

/-- File index (0–7) of a square. -/
def fileOf (s : Nat) : Int := ((s % 8 : Nat) : Int)

/-- Rank index (0–7) of a square (`chess.square_rank`). -/
def rankOf (s : Nat) : Int := ((s / 8 : Nat) : Int)

/-- Square index from file and rank coordinates, when both are on the
board. -/
def sqIndex (f r : Int) : Option Nat :=
  if 0 ≤ f ∧ f < 8 ∧ 0 ≤ r ∧ r < 8 then some (r.toNat * 8 + f.toNat) else none

/-- Sign of an integer, as a unit ray step. -/
def sgn (x : Int) : Int := if 0 < x then 1 else if x < 0 then -1 else 0

/-- Walk a ray from `(sf, sr)` in direction `(df, dr)` until the target
`(tf, tr)`, checking that every strictly intermediate square is empty.  The
fuel bound 8 covers every ray on an 8×8 board. -/
def rayClearAux (occ : Nat → Option CPiece) (df dr tf tr : Int) :
    Int → Int → Nat → Bool
  | _, _, 0 => true
  | sf, sr, n + 1 =>
    if sf == tf && sr == tr then true
    else
      match sqIndex sf sr with
      | some sq => (occ sq).isNone && rayClearAux occ df dr tf tr (sf + df) (sr + dr) n
      | none => false

/-- All squares strictly between `s` and `t` (along the line from `s` to
`t`) are empty. -/
def rayClear (occ : Nat → Option CPiece) (s t : Nat) : Bool :=
  let df := sgn (fileOf t - fileOf s)
  let dr := sgn (rankOf t - rankOf s)
  rayClearAux occ df dr (fileOf t) (rankOf t) (fileOf s + df) (rankOf s + dr) 8

/-- Does a piece of kind `pt` and colour `c` standing on `s` attack square
`t`?  Standard chess attack rules: pawns capture one square diagonally
forward, knights leap, kings step one square, sliders need a clear ray. -/
def attacksFrom (occ : Nat → Option CPiece) (c : Bool) (pt : PieceT)
    (s t : Nat) : Bool :=
  let df := fileOf t - fileOf s
  let dr := rankOf t - rankOf s
  match pt with
  | .pawn => (df == 1 || df == -1) && dr == (if c then (1 : Int) else -1)
  | .knight =>
    (df.natAbs == 1 && dr.natAbs == 2) || (df.natAbs == 2 && dr.natAbs == 1)
  | .king => max df.natAbs dr.natAbs == 1
  | .bishop => df != 0 && df.natAbs == dr.natAbs && rayClear occ s t
  | .rook => ((df == 0 && dr != 0) || (dr == 0 && df != 0)) && rayClear occ s t
  | .queen =>
    ((df != 0 && df.natAbs == dr.natAbs) ||
     (df == 0 && dr != 0) || (dr == 0 && df != 0)) && rayClear occ s t

/-- Embeds `Board.is_attacked_by(color, square)`: some piece of `color` attacks the
square. -/
def attackedBy (p : CPos) (c : Bool) (t : Nat) : Bool :=
  (List.range 64).any fun s =>
    match p.occ s with
    | some pc => pc.1 == c && attacksFrom p.occ pc.1 pc.2 s t
    | none => false

/-- Embeds `Board.push` for a regular move: the moved piece (promoted if the move
carries a promotion) lands on the destination, the source empties, and the
side to move toggles.  Castling and en-passant side effects are not needed
for the concrete moves evaluated here. -/
def applyMove (p : CPos) (m : CMove) : CPos :=
  { occ := fun s =>
      if s = m.toSq then
        match m.promotion with
        | some pt => (p.occ m.fromSq).map fun pc => (pc.1, pt)
        | none => p.occ m.fromSq
      else if s = m.fromSq then none
      else p.occ s
    turn := ! p.turn }

/-- The back-rank piece arrangement of the initial position. -/
def backRankPiece (f : Nat) : PieceT :=
  match f with
  | 0 => .rook
  | 1 => .knight
  | 2 => .bishop
  | 3 => .queen
  | 4 => .king
  | 5 => .bishop
  | 6 => .knight
  | _ => .rook

/-- The standard chess starting position (`chess.Board()`), white to move. -/
def startPos : CPos :=
  { occ := fun s =>
      if s / 8 = 0 then some (true, backRankPiece (s % 8))
      else if s / 8 = 1 then some (true, .pawn)
      else if s / 8 = 6 then some (false, .pawn)
      else if s / 8 = 7 then some (false, backRankPiece (s % 8))
      else none
    turn := true }

/-- File letter to 0-based index, as accepted by `chess.parse_square`. -/
def fileIndex : Char → Option Nat
  | 'a' => some 0
  | 'b' => some 1
  | 'c' => some 2
  | 'd' => some 3
  | 'e' => some 4
  | 'f' => some 5
  | 'g' => some 6
  | 'h' => some 7
  | _ => none

/-- Rank digit to 0-based index, as accepted by `chess.parse_square`. -/
def rankIndex : Char → Option Nat
  | '1' => some 0
  | '2' => some 1
  | '3' => some 2
  | '4' => some 3
  | '5' => some 4
  | '6' => some 5
  | '7' => some 6
  | '8' => some 7
  | _ => none

/-- Embeds `chess.parse_square`: exactly the two-character names `a1` … `h8` parse;
anything else raises `ValueError` in the library, modelled as `none` (the
wrapper catches the exception). -/
def parseSquare (s : String) : Option Nat :=
  match s.toList with
  | [f, r] =>
    match fileIndex f, rankIndex r with
    | some fi, some ri => some (ri * 8 + fi)
    | _, _ => none
  | _ => none

/-- The `python-chess` operations used by `ChessEngine.validate_move`,
abstracted over the board and move representations.  `push`/`pop` mutate the
board (modelled by state passing); the remaining operations are pure
queries. -/
structure ChessLib (B M : Type) where
  push : B → M → B
  pop : B → B
  turn : B → Bool
  isAttackedBy : B → Bool → Nat → Bool
  pieceAt : B → Nat → Option CPiece
  isLegal : B → M → Bool
  isCapture : B → M → Bool
  sanOf : B → M → String
  mkMove : Nat → Nat → Option PieceT → M
  moveTo : M → Nat

/-- Embeds `ChessEngine._is_move_risky`: push the move, query
`is_attacked_by(not board.turn, move.to_square)` on the pushed board, pop.
Returns the flag and the board after the pop. -/
def is_move_risky {B M : Type} (L : ChessLib B M) (b : B) (m : M) : Bool × B :=
  let b1 := L.push b m
  let att := L.isAttackedBy b1 (! L.turn b1) (L.moveTo m)
  (att, L.pop b1)

/-- The auto-queen promotion of `validate_move`: when the source square holds
a pawn and the destination rank is the back rank of the mover, promote to
queen. -/
def autoPromotion {B M : Type} (L : ChessLib B M) (b : B) (f t : Nat) :
    Option PieceT :=
  match L.pieceAt b f with
  | some pc =>
    if pc.2 = PieceT.pawn then
      if rankOf t = (if L.turn b then 7 else 0) then some PieceT.queen else none
    else none
  | none => none

/-- The dictionary returned by `ChessEngine.validate_move` (keys collected
over both the declined and the legal shapes). -/
structure VResult (M : Type) where
  legal : Bool
  error : Option String := none
  move : Option M := none
  sanText : Option String := none
  is_capture : Bool := false
  captured_piece : Option String := none
  is_risky : Bool := false

/-- Embeds `ChessEngine.validate_move`: parse both squares (a `ValueError` is caught
and reported as a declined result), build the move with auto-queen
promotion, decline if it is not legal, otherwise report capture, risk and
SAN.  The board is threaded explicitly; the only mutation is the push/pop
pair inside `_is_move_risky`.  The function is total: no exception escapes
to the caller. -/
def validate_move {B M : Type} (L : ChessLib B M) (b : B)
    (fromSquare toSquare : String) : VResult M × B :=
  match parseSquare fromSquare, parseSquare toSquare with
  | some f, some t =>
    let m := L.mkMove f t (autoPromotion L b f t)
    if L.isLegal b m then
      let isCap := L.isCapture b m
      let captured :=
        if isCap then (L.pieceAt b t).map (fun pc => pieceName pc.2) else none
      let rp := is_move_risky L b m
      ({ legal := true
         move := some m
         sanText := some (L.sanOf rp.2 m)
         is_capture := isCap
         captured_piece := captured
         is_risky := rp.1 }, rp.2)
    else ({ legal := false, error := some "Illegal move" }, b)
  | _, _ => ({ legal := false, error := some "Invalid square" }, b)

/-- A board with its move-stack history, as `python-chess` keeps it: `push`
saves the current position, `pop` restores the most recently saved one. -/
structure CB where
  cur : CPos
  hist : List CPos

/-- Pseudo-legal movement for the concrete instantiation: a piece of the
side to move stands on the source, the destination does not hold a friendly
piece, and the geometry matches (non-pawns move as they attack; pawns push
one square — or two from their home rank — onto empty squares and capture
diagonally).  Check evasion, castling and en passant are not modelled; no
theorem depends on this field beyond its use at concrete witness inputs. -/
def pseudoLegal (p : CPos) (m : CMove) : Bool :=
  match p.occ m.fromSq with
  | some pc =>
    pc.1 == p.turn &&
    (match p.occ m.toSq with
     | some pc2 => pc2.1 != pc.1
     | none => true) &&
    (match pc.2 with
     | PieceT.pawn =>
       let dr : Int := if pc.1 then 1 else -1
       let df := fileOf m.toSq - fileOf m.fromSq
       let dsr := rankOf m.toSq - rankOf m.fromSq
       (dsr == dr && df == 0 && (p.occ m.toSq).isNone) ||
       (dsr == dr && (df == 1 || df == -1) && (p.occ m.toSq).isSome) ||
       (dsr == 2 * dr && df == 0 &&
        rankOf m.fromSq == (if pc.1 then (1 : Int) else 6) &&
        (p.occ m.toSq).isNone &&
        (p.occ (if pc.1 then m.fromSq + 8 else m.fromSq - 8)).isNone)
     | k => attacksFrom p.occ pc.1 k m.fromSq m.toSq)
  | none => false

/-- Coordinate name of a square (`chess.square_name`). -/
def squareName (s : Nat) : String :=
  String.mk [Char.ofNat (97 + s % 8), Char.ofNat (49 + s / 8)]

/-- The concrete instantiation of the `python-chess` interface over the
executable board model.  SAN rendering is stood in for by coordinate
notation; no theorem constrains its output. -/
def concreteChessLib : ChessLib CB CMove :=
  { push := fun b m => ⟨applyMove b.cur m, b.cur :: b.hist⟩
    pop := fun b => ⟨b.hist.headD b.cur, b.hist.tail⟩
    turn := fun b => b.cur.turn
    isAttackedBy := fun b c s => attackedBy b.cur c s
    pieceAt := fun b s => b.cur.occ s
    isLegal := fun b m => pseudoLegal b.cur m
    isCapture := fun b m => (b.cur.occ m.toSq).isSome
    sanOf := fun _ m => squareName m.fromSq ++ squareName m.toSq
    mkMove := fun f t pr => ⟨f, t, pr⟩
    moveTo := fun m => m.toSq }

/-- Modelled from the spec: the risk flag the specification describes —
after simulating the move, the destination square is attacked by the
opponent of the side that just moved.  The side that moves from `p` is
`p.turn`, so the opponent is `! p.turn`. -/
def spec_is_move_risky (p : CPos) (m : CMove) : Bool :=
  attackedBy (applyMove p m) (! p.turn) m.toSq

/-! ## Theorems -/

/-- The function `apply_morale_change` always lands in the interval `[0, 100]`. -/
theorem morale_apply_bounds (m c : Int) :
    0 ≤ apply_morale_change m c ∧ apply_morale_change m c ≤ 100 :=
  ⟨le_max_left 0 _, max_le (by norm_num) (min_le_left 100 _)⟩

/-- Claim C4: for every initial morale value in [0,100] and every finite
sequence of morale events (each delta computed by `calculate_morale_change`
with any personality and applied by `apply_morale_change`), the morale after
every step remains in [0,100]. -/
theorem c4_morale_trace_bounded (init : Int) (h0 : 0 ≤ init) (h1 : init ≤ 100)
    (events : List (String × Option Personality)) :
    ∀ m ∈ morale_trace init events, 0 ≤ m ∧ m ≤ 100 := by
  induction events generalizing init with
  | nil =>
    intro m hm
    simp only [morale_trace, List.mem_singleton] at hm
    exact hm ▸ ⟨h0, h1⟩
  | cons e es ih =>
    intro m hm
    simp only [morale_trace, List.mem_cons] at hm
    rcases hm with rfl | hm
    · exact ⟨h0, h1⟩
    · exact ih (morale_step init e) (morale_apply_bounds init _).1
        (morale_apply_bounds init _).2 m hm

/-- Witness for C4 at a concrete trace: morale 70, one `capture_enemy` event,
intermediate value 85. -/
theorem c4_witness :
    85 ∈ morale_trace 70 [("capture_enemy", none)] ∧ (0 : Int) ≤ 85 ∧ (85 : Int) ≤ 100 :=
  ⟨by decide,
   c4_morale_trace_bounded 70 (by decide) (by decide) [("capture_enemy", none)] 85 (by decide)⟩

/-- The personality override value for an event, when one is present: the
`morale_modifiers` map named by the (non-empty) personality contains the
event type. -/
def overrideLookup (personality : Option Personality) (eventType : String) :
    Option Int :=
  match personality with
  | some p =>
    match p.morale_modifiers with
    | some modifiers => modifiers.lookup eventType
    | none => none
  | none => none

/-- Claim C9: if the morale-override map of the personality names the event kind,
`calculate_morale_change` returns exactly the override value, fully
replacing the base delta; otherwise it returns the base delta from the
fourteen-entry event table. -/
theorem c9_override_replaces_base (eventType : String) (currentMorale : Int)
    (personality : Option Personality) :
    (∀ v, overrideLookup personality eventType = some v →
      calculate_morale_change eventType currentMorale personality = v) ∧
    (overrideLookup personality eventType = none →
      calculate_morale_change eventType currentMorale personality =
        MORALE_EVENTS eventType) := by
  rcases personality with _ | ⟨_ | mods⟩
  · simp [calculate_morale_change, overrideLookup]
  · simp [calculate_morale_change, overrideLookup]
  · cases h : mods.lookup eventType <;>
      simp [calculate_morale_change, overrideLookup, h]

/-- Witness for C9: an override `capture_enemy ↦ -7` fully replaces the
base delta `+15`; without an override the base delta is returned. -/
theorem c9_witness :
    overrideLookup (some ⟨some [("capture_enemy", -7)]⟩) "capture_enemy" = some (-7) ∧
    calculate_morale_change "capture_enemy" 50 (some ⟨some [("capture_enemy", -7)]⟩) = -7 ∧
    calculate_morale_change "capture_enemy" 50 none = MORALE_EVENTS "capture_enemy" :=
  ⟨by decide,
   (c9_override_replaces_base "capture_enemy" 50 (some ⟨some [("capture_enemy", -7)]⟩)).1
     (-7) (by decide),
   (c9_override_replaces_base "capture_enemy" 50 none).2 (by decide)⟩

/-- The morale-tier base probability as the specification words it. -/
def spec_tier (morale : Int) : ℚ :=
  if 80 ≤ morale then 0.95
  else if 60 ≤ morale ∧ morale ≤ 79 then 0.80
  else if 40 ≤ morale ∧ morale ≤ 59 then 0.55
  else if 20 ≤ morale ∧ morale ≤ 39 then 0.30
  else 0.10

/-- The piece-type bias as the specification words it (rook +0.10,
king +0.15, pawn +0.05, bishop 0, knight −0.05, queen −0.10, unknown 0). -/
def spec_piece_bias (pieceType : String) : ℚ :=
  if pieceType = "rook" then 0.10
  else if pieceType = "king" then 0.15
  else if pieceType = "pawn" then 0.05
  else if pieceType = "bishop" then 0
  else if pieceType = "knight" then -0.05
  else if pieceType = "queen" then -0.10
  else 0

/-- The obedience probability as the specification words it: morale-tier
base, multiplied by 0.7 when risky, plus the piece-type bias. -/
def spec_obey_probability (morale : Int) (isRisky : Bool) (pieceType : String) : ℚ :=
  spec_tier morale * (if isRisky then 0.7 else 1) + spec_piece_bias pieceType

/-- The morale-tier chain of the source agrees with the tiers of the specification. -/
theorem obedience_tier_eq (m : Int) : get_obedience_rate m = spec_tier m := by
  unfold get_obedience_rate spec_tier
  split_ifs <;> first | rfl | omega

/-- The piece-modifier dictionary of the source agrees with the bias table of
the specification. -/
theorem obedience_bias_eq (pt : String) :
    pieceObedienceModifier pt = spec_piece_bias pt := by
  unfold pieceObedienceModifier spec_piece_bias
  split_ifs <;> simp_all <;> norm_num

/-- Claim C5: `will_piece_obey` (with the ambient draw injected) follows
exactly the specified algorithm: morale ≥ 90 and not risky always obeys;
otherwise obey iff draw < tier·(0.7 if risky) + piece bias.  In particular
morale 95 not risky always obeys, and morale 70, not risky, rook, draw 0.5
obeys. -/
theorem c5_will_piece_obey_algorithm (draw : ℚ) (morale : Int) (isRisky : Bool)
    (pieceType : String) :
    (will_piece_obey draw morale isRisky pieceType =
      if 90 ≤ morale ∧ isRisky = false then true
      else decide (draw < spec_obey_probability morale isRisky pieceType)) ∧
    will_piece_obey draw 95 false pieceType = true ∧
    will_piece_obey (1/2) 70 false "rook" = true := by
  refine ⟨?_, ?_, ?_⟩
  · unfold will_piece_obey spec_obey_probability
    rw [obedience_tier_eq, obedience_bias_eq]
    cases isRisky <;> simp [mul_one]
  · unfold will_piece_obey
    have h : (90 : Int) ≤ 95 := by norm_num
    simp [h]
  · simp only [will_piece_obey, get_obedience_rate, pieceObedienceModifier]
    norm_num

/-- The argument of the C2 scenario. -/
def teamArgument : String := "For the team and greater good!"

/-- Claim C2 counterexample: for "For the team and greater good!" against a
pawn, only two keywords hit ("team" and "greater good"), so
`calculate_personality_match` is not 15; and the argument has six words, so
the length bonus is +3 and `calculate_logic_score` is not 20. -/
theorem c2_counterexample :
    calculate_personality_match teamArgument "pawn" ≠ 15 ∧
    calculate_logic_score teamArgument true false ≠ 20 :=
  ⟨by decide, by decide⟩

/-- Claim C2 as amended: the argument hits two pawn keywords
(`personality_match = 10`), scores `logic_score = 18` (5 base + 10 accurate
+ 3 for a six-word argument), and its success probability against the pawn
(0.87) strictly exceeds the probability of the identical evaluation against
a knight (0.79, `personality_match = 2`). -/
theorem c2_persuasion_scenario :
    calculate_personality_match teamArgument "pawn" = 10 ∧
    calculate_logic_score teamArgument true false = 18 ∧
    calculate_personality_match teamArgument "knight" = 2 ∧
    (evaluate_persuasion teamArgument "knight" 70 true false 0.5 false 0 0 0).probability
      < (evaluate_persuasion teamArgument "pawn" 70 true false 0.5 false 0 0 0).probability := by
  have hpawn :
      (evaluate_persuasion teamArgument "pawn" 70 true false 0.5 false 0 0 0).probability
        = 0.87 := by
    simp only [evaluate_persuasion]
    rw [show calculate_logic_score teamArgument true false = 18 from by decide,
        show calculate_personality_match teamArgument "pawn" = 10 from by decide]
    simp only [calculate_morale_modifier, calculate_trust_modifier,
      calculate_urgency_factor, get_base_rate, round3]
    norm_num [round_eq]
  have hknight :
      (evaluate_persuasion teamArgument "knight" 70 true false 0.5 false 0 0 0).probability
        = 0.79 := by
    simp only [evaluate_persuasion]
    rw [show calculate_logic_score teamArgument true false = 18 from by decide,
        show calculate_personality_match teamArgument "knight" = 2 from by decide]
    simp only [calculate_morale_modifier, calculate_trust_modifier,
      calculate_urgency_factor, get_base_rate, round3]
    norm_num [round_eq]
  refine ⟨by decide, by decide, by decide, ?_⟩
  rw [hpawn, hknight]
  norm_num

/-- The function `get_base_rate` always returns an integer number of twentieths. -/
theorem base_rate_twentieths (m : Int) : ∃ j : ℤ, get_base_rate m = (j : ℚ) / 20 := by
  unfold get_base_rate
  split_ifs
  exacts [⟨18, by norm_num⟩, ⟨14, by norm_num⟩, ⟨9, by norm_num⟩,
    ⟨5, by norm_num⟩, ⟨2, by norm_num⟩, ⟨9, by norm_num⟩]

/-- The function `round3` fixes every integer multiple of a thousandth. -/
theorem round3_thousandths (k : ℤ) : round3 ((k : ℚ) / 1000) = (k : ℚ) / 1000 := by
  unfold round3
  have h : ((k : ℚ) / 1000) * 1000 = (k : ℚ) := by field_simp
  rw [h, round_intCast]

/-- The function `round3` fixes the clamp of any integer multiple of a thousandth. -/
theorem round3_fixes_clamp (x : ℚ) (hx : ∃ k : ℤ, x = (k : ℚ) / 1000) :
    round3 (min 0.95 (max 0.05 x)) = min 0.95 (max 0.05 x) := by
  obtain ⟨k, rfl⟩ := hx
  have h05 : (0.05 : ℚ) = ((50 : ℤ) : ℚ) / 1000 := by norm_num
  have h95 : (0.95 : ℚ) = ((950 : ℤ) : ℚ) / 1000 := by norm_num
  rcases max_choice (0.05 : ℚ) ((k : ℚ) / 1000) with hmax | hmax <;> rw [hmax] <;>
    rcases min_choice (0.95 : ℚ) _ with hmin | hmin <;> rw [hmin]
  · rw [h95]; exact round3_thousandths 950
  · rw [h05]; exact round3_thousandths 50
  · rw [h95]; exact round3_thousandths 950
  · exact round3_thousandths k

/-- Claim C8: for every input, the probability returned by
`evaluate_persuasion` equals the clamp to [0.05, 0.95] of
`base_rate·0.5 + (logic/25)·0.25 + (personality/15)·0.15 +
(morale_mod/40 + 0.5)·0.20 + (trust_mod/25 + 0.6)·0.15 + (urgency/10)·0.10`,
and in particular lies in [0.05, 0.95].  (The `round(·, 3)` of the source is the
identity here: the sum is always an integer multiple of 1/1000.) -/
theorem c8_probability_clamped (argument pieceType : String) (morale : Int)
    (isClaimAccurate isRisky : Bool) (trustHistory : ℚ) (isCheck : Bool)
    (materialBalance moveCount : Int) (draw : ℚ) :
    (evaluate_persuasion argument pieceType morale isClaimAccurate isRisky
        trustHistory isCheck materialBalance moveCount draw).probability
      = min 0.95 (max 0.05
          (get_base_rate morale * 0.5
            + (calculate_logic_score argument isClaimAccurate isRisky : ℚ) / 25 * 0.25
            + (calculate_personality_match argument pieceType : ℚ) / 15 * 0.15
            + ((calculate_morale_modifier morale : ℚ) / 40 + 0.5) * 0.20
            + ((calculate_trust_modifier trustHistory : ℚ) / 25 + 0.6) * 0.15
            + (calculate_urgency_factor isCheck materialBalance moveCount : ℚ) / 10 * 0.10)) ∧
    0.05 ≤ (evaluate_persuasion argument pieceType morale isClaimAccurate isRisky
        trustHistory isCheck materialBalance moveCount draw).probability ∧
    (evaluate_persuasion argument pieceType morale isClaimAccurate isRisky
        trustHistory isCheck materialBalance moveCount draw).probability ≤ 0.95 := by
  obtain ⟨j, hj⟩ := base_rate_twentieths morale
  have hflat :
      get_base_rate morale * 0.5
        + ((calculate_logic_score argument isClaimAccurate isRisky : ℚ) / 25 * 0.25
          + (calculate_personality_match argument pieceType : ℚ) / 15 * 0.15
          + ((calculate_morale_modifier morale : ℚ) / 40 + 0.5) * 0.20
          + ((calculate_trust_modifier trustHistory : ℚ) / 25 + 0.6) * 0.15
          + (calculate_urgency_factor isCheck materialBalance moveCount : ℚ) / 10 * 0.10)
      = ((25 * j + 10 * calculate_logic_score argument isClaimAccurate isRisky
          + 10 * calculate_personality_match argument pieceType
          + 5 * calculate_morale_modifier morale
          + 6 * calculate_trust_modifier trustHistory
          + 10 * calculate_urgency_factor isCheck materialBalance moveCount
          + 190 : ℤ) : ℚ) / 1000 := by
    rw [hj]; push_cast; ring
  have hprob :
      (evaluate_persuasion argument pieceType morale isClaimAccurate isRisky
          trustHistory isCheck materialBalance moveCount draw).probability
        = min 0.95 (max 0.05
            (get_base_rate morale * 0.5
              + ((calculate_logic_score argument isClaimAccurate isRisky : ℚ) / 25 * 0.25
                + (calculate_personality_match argument pieceType : ℚ) / 15 * 0.15
                + ((calculate_morale_modifier morale : ℚ) / 40 + 0.5) * 0.20
                + ((calculate_trust_modifier trustHistory : ℚ) / 25 + 0.6) * 0.15
                + (calculate_urgency_factor isCheck materialBalance moveCount : ℚ) / 10 * 0.10))) := by
    simp only [evaluate_persuasion]
    exact round3_fixes_clamp _ ⟨_, hflat⟩
  have hshape :
      get_base_rate morale * 0.5
        + ((calculate_logic_score argument isClaimAccurate isRisky : ℚ) / 25 * 0.25
          + (calculate_personality_match argument pieceType : ℚ) / 15 * 0.15
          + ((calculate_morale_modifier morale : ℚ) / 40 + 0.5) * 0.20
          + ((calculate_trust_modifier trustHistory : ℚ) / 25 + 0.6) * 0.15
          + (calculate_urgency_factor isCheck materialBalance moveCount : ℚ) / 10 * 0.10)
      = get_base_rate morale * 0.5
          + (calculate_logic_score argument isClaimAccurate isRisky : ℚ) / 25 * 0.25
          + (calculate_personality_match argument pieceType : ℚ) / 15 * 0.15
          + ((calculate_morale_modifier morale : ℚ) / 40 + 0.5) * 0.20
          + ((calculate_trust_modifier trustHistory : ℚ) / 25 + 0.6) * 0.15
          + (calculate_urgency_factor isCheck materialBalance moveCount : ℚ) / 10 * 0.10 := by
    ring
  rw [hprob, hshape]
  exact ⟨rfl, le_min (by norm_num) (le_max_left _ _), min_le_left _ _⟩

/-- Claim C10: whenever `check_and_increment` returns decline
(`allowed = false`), the limiter state is unchanged in every observable
count — counters are incremented only on a call that returns allowed.  The
state equality is literal: every per-(game, move) count, per-game count and
per-day set is as before. -/
theorem c10_decline_leaves_state (cfg : RLConfig) (st : RLState)
    (today gameId : String) (moveNumber : Int)
    (h : (check_and_increment cfg st today gameId moveNumber).1.1 = false) :
    (check_and_increment cfg st today gameId moveNumber).2 = st := by
  unfold check_and_increment at h ⊢
  split_ifs at h ⊢ <;> simp_all

/-- A state whose per-move counter is already exhausted for every pair. -/
def rlDeclineState : RLState :=
  { move_calls := fun _ _ => 5, game_calls := fun _ => 0, daily_games := fun _ => ∅ }

/-- Witness for C10: a declined call (per-move ceiling already reached)
leaves the state untouched. -/
theorem c10_witness :
    (check_and_increment defaultRLConfig rlDeclineState "d" "g" 1).1.1 = false ∧
    (check_and_increment defaultRLConfig rlDeclineState "d" "g" 1).2 = rlDeclineState :=
  ⟨by decide, c10_decline_leaves_state defaultRLConfig rlDeclineState "d" "g" 1 (by decide)⟩

/-- An allowed check increments the per-move count of the pair by one, implies
the count was below the ceiling, and records the game in the daily set. -/
theorem rl_allowed_step (st : RLState) (today gameId : String) (moveNumber : Int)
    (h : rlAllowed st today gameId moveNumber = true) :
    (rlStep st today gameId moveNumber).move_calls gameId moveNumber
        = st.move_calls gameId moveNumber + 1 ∧
    st.move_calls gameId moveNumber < defaultRLConfig.max_calls_per_move ∧
    gameId ∈ (rlStep st today gameId moveNumber).daily_games today := by
  unfold rlAllowed check_and_increment at h
  unfold rlStep check_and_increment
  split_ifs at h ⊢ with hd hm hg
  refine ⟨?_, by omega, ?_⟩
  · simp
  · simp

/-- Any check preserves the membership of the game in the daily set. -/
theorem rl_step_preserves_mem (st : RLState) (today gameId : String)
    (moveNumber : Int) (h : gameId ∈ st.daily_games today) :
    gameId ∈ (rlStep st today gameId moveNumber).daily_games today := by
  unfold rlStep check_and_increment
  split_ifs <;> simp [h]

/-- The per-move decline message is at least as long as its leading
literal. -/
theorem perMoveLimitMsg_length (cfg : RLConfig) (moveNumber : Int) :
    27 ≤ (perMoveLimitMsg cfg moveNumber).length := by
  unfold perMoveLimitMsg
  rw [String.length_append, String.length_append, String.length_append,
    String.length_append]
  have h : ("Per-move AI limit reached (" : String).length = 27 := rfl
  omega

/-- Claim C6: from any limiter state, once five successive governance checks
for the same (game, move) pair have returned allowed under the default
limits (`max_calls_per_move = 5`), the sixth check for that pair returns
decline with a non-empty reason — and, the function being total, no error
is raised. -/
theorem c6_sixth_check_declines (st : RLState) (today gameId : String)
    (moveNumber : Int)
    (h0 : rlAllowed st today gameId moveNumber = true)
    (h1 : rlAllowed (rlIterate today gameId moveNumber st 1) today gameId moveNumber = true)
    (h2 : rlAllowed (rlIterate today gameId moveNumber st 2) today gameId moveNumber = true)
    (h3 : rlAllowed (rlIterate today gameId moveNumber st 3) today gameId moveNumber = true)
    (h4 : rlAllowed (rlIterate today gameId moveNumber st 4) today gameId moveNumber = true) :
    rlAllowed (rlIterate today gameId moveNumber st 5) today gameId moveNumber = false ∧
    (check_and_increment defaultRLConfig (rlIterate today gameId moveNumber st 5)
        today gameId moveNumber).1.2
      = some (perMoveLimitMsg defaultRLConfig moveNumber) ∧
    perMoveLimitMsg defaultRLConfig moveNumber ≠ "" := by
  have d1 : rlStep st today gameId moveNumber
      = rlIterate today gameId moveNumber st 1 := rfl
  have d2 : rlStep (rlIterate today gameId moveNumber st 1) today gameId moveNumber
      = rlIterate today gameId moveNumber st 2 := rfl
  have d3 : rlStep (rlIterate today gameId moveNumber st 2) today gameId moveNumber
      = rlIterate today gameId moveNumber st 3 := rfl
  have d4 : rlStep (rlIterate today gameId moveNumber st 3) today gameId moveNumber
      = rlIterate today gameId moveNumber st 4 := rfl
  have d5 : rlStep (rlIterate today gameId moveNumber st 4) today gameId moveNumber
      = rlIterate today gameId moveNumber st 5 := rfl
  obtain ⟨k1, _, mem1⟩ := rl_allowed_step st today gameId moveNumber h0
  obtain ⟨k2, _, _⟩ := rl_allowed_step _ today gameId moveNumber h1
  obtain ⟨k3, _, _⟩ := rl_allowed_step _ today gameId moveNumber h2
  obtain ⟨k4, _, _⟩ := rl_allowed_step _ today gameId moveNumber h3
  obtain ⟨k5, _, _⟩ := rl_allowed_step _ today gameId moveNumber h4
  rw [d1] at k1 mem1
  rw [d2] at k2
  rw [d3] at k3
  rw [d4] at k4
  rw [d5] at k5
  have mem2 := rl_step_preserves_mem _ today gameId moveNumber mem1
  rw [d2] at mem2
  have mem3 := rl_step_preserves_mem _ today gameId moveNumber mem2
  rw [d3] at mem3
  have mem4 := rl_step_preserves_mem _ today gameId moveNumber mem3
  rw [d4] at mem4
  have mem5 := rl_step_preserves_mem _ today gameId moveNumber mem4
  rw [d5] at mem5
  have hmax : defaultRLConfig.max_calls_per_move = 5 := rfl
  have hcount : defaultRLConfig.max_calls_per_move ≤
      (rlIterate today gameId moveNumber st 5).move_calls gameId moveNumber := by
    omega
  have hne : perMoveLimitMsg defaultRLConfig moveNumber ≠ "" := by
    intro hEq
    have hl := perMoveLimitMsg_length defaultRLConfig moveNumber
    rw [hEq] at hl
    have h0len : ("" : String).length = 0 := rfl
    omega
  refine ⟨?_, ?_, hne⟩
  · unfold rlAllowed check_and_increment
    rw [if_neg (fun hc => hc.2 mem5), if_pos hcount]
  · unfold check_and_increment
    rw [if_neg (fun hc => hc.2 mem5), if_pos hcount]

/-- Witness for C6: from the fresh limiter, five allowed checks for
("g", move 1) and a declined sixth. -/
theorem c6_witness :
    rlAllowed (rlIterate "d" "g" 1 initialRLState 5) "d" "g" 1 = false ∧
    (check_and_increment defaultRLConfig (rlIterate "d" "g" 1 initialRLState 5)
        "d" "g" 1).1.2 = some (perMoveLimitMsg defaultRLConfig 1) ∧
    perMoveLimitMsg defaultRLConfig 1 ≠ "" :=
  c6_sixth_check_declines initialRLState "d" "g" 1 (by decide) (by decide)
    (by decide) (by decide) (by decide)

/-- Claim C7: when the daily distinct-game set has reached the daily ceiling
(default 50), a check for a game outside the set declines with the
daily-limit reason, while a game already in the set is never blocked by the
daily ceiling: its check is allowed precisely when the per-move and
per-game ceilings both pass. -/
theorem c7_daily_ceiling (st : RLState) (today gameId : String) (moveNumber : Int)
    (hcard : defaultRLConfig.daily_game_limit ≤ (st.daily_games today).card) :
    (gameId ∉ st.daily_games today →
      (check_and_increment defaultRLConfig st today gameId moveNumber).1
        = (false, some (dailyLimitMsg defaultRLConfig))) ∧
    (gameId ∈ st.daily_games today →
      ((check_and_increment defaultRLConfig st today gameId moveNumber).1.1 = true ↔
        st.move_calls gameId moveNumber < defaultRLConfig.max_calls_per_move ∧
        st.game_calls gameId < defaultRLConfig.max_calls_per_game)) := by
  constructor
  · intro hnot
    unfold check_and_increment
    rw [if_pos ⟨hcard, hnot⟩]
  · intro hmem
    unfold check_and_increment
    rw [if_neg (fun hc => hc.2 hmem)]
    by_cases hm : defaultRLConfig.max_calls_per_move ≤ st.move_calls gameId moveNumber
    · rw [if_pos hm]
      constructor
      · intro hfalse
        exact absurd hfalse (by simp)
      · intro hP
        exfalso
        omega
    · rw [if_neg hm]
      by_cases hg : defaultRLConfig.max_calls_per_game ≤ st.game_calls gameId
      · rw [if_pos hg]
        constructor
        · intro hfalse
          exact absurd hfalse (by simp)
        · intro hP
          exfalso
          omega
      · rw [if_neg hg]
        constructor
        · intro _
          omega
        · intro _
          rfl

/-- Fifty distinct single-character game identifiers. -/
def fiftyGames : Finset String :=
  ((List.range 50).map (fun n => String.mk [Char.ofNat (65 + n)])).toFinset

/-- A state in which the daily distinct-game set is already at the default
daily ceiling for every date. -/
def rlC7State : RLState :=
  { move_calls := fun _ _ => 0, game_calls := fun _ => 0, daily_games := fun _ => fiftyGames }

/-- Witness for C7: with fifty games registered, a new game "zz" declines
with the daily-limit reason while the registered game "A" is still
allowed. -/
theorem c7_witness :
    (check_and_increment defaultRLConfig rlC7State "d" "zz" 1).1
      = (false, some (dailyLimitMsg defaultRLConfig)) ∧
    (check_and_increment defaultRLConfig rlC7State "d" "A" 1).1.1 = true :=
  ⟨(c7_daily_ceiling rlC7State "d" "zz" 1 (by decide)).1 (by decide),
   ((c7_daily_ceiling rlC7State "d" "A" 1 (by decide)).2 (by decide)).mpr (by decide)⟩

/-- Claim C3: for every chess-library implementation whose `pop` undoes
`push` (as the `python-chess` move stack does) and every input, the board
after `validate_move` equals the board before — whether the move was
declined or reported legal; malformed square notation yields a declined
result, and so does an illegal move.  The embedding is a total function:
the `ValueError` of square parsing is caught inside, so no exception
escapes to the caller. -/
theorem c3_validate_move_safe {B M : Type} (L : ChessLib B M)
    (hpop : ∀ b m, L.pop (L.push b m) = b) (b : B) (fromSquare toSquare : String) :
    (validate_move L b fromSquare toSquare).2 = b ∧
    (parseSquare fromSquare = none ∨ parseSquare toSquare = none →
      (validate_move L b fromSquare toSquare).1.legal = false) ∧
    (∀ f t, parseSquare fromSquare = some f → parseSquare toSquare = some t →
      L.isLegal b (L.mkMove f t (autoPromotion L b f t)) = false →
      (validate_move L b fromSquare toSquare).1.legal = false) := by
  cases hf : parseSquare fromSquare with
  | none =>
    refine ⟨?_, fun _ => ?_, fun f t hfs _ _ => ?_⟩
    · simp [validate_move, hf]
    · simp [validate_move, hf]
    · exact Option.noConfusion hfs
  | some f0 =>
    cases ht : parseSquare toSquare with
    | none =>
      refine ⟨?_, fun _ => ?_, fun f t hfs hts _ => ?_⟩
      · simp [validate_move, hf, ht]
      · simp [validate_move, hf, ht]
      · exact Option.noConfusion hts
    | some t0 =>
      by_cases hleg : L.isLegal b (L.mkMove f0 t0 (autoPromotion L b f0 t0)) = true
      · refine ⟨?_, fun hor => ?_, fun f t hfs hts hL => ?_⟩
        · simp only [validate_move, hf, ht, hleg, if_true]
          exact hpop b _
        · rcases hor with h | h
          · exact Option.noConfusion h
          · exact Option.noConfusion h
        · obtain rfl : f0 = f := Option.some.inj hfs
          obtain rfl : t0 = t := Option.some.inj hts
          rw [hleg] at hL
          exact Bool.noConfusion hL
      · rw [Bool.not_eq_true] at hleg
        refine ⟨?_, fun _ => ?_, fun f t _ _ _ => ?_⟩ <;>
          simp [validate_move, hf, ht, hleg]

/-- The starting board with an empty move stack, as `chess.Board()`. -/
def startCB : CB := ⟨startPos, []⟩

/-- Witness for C3: a malformed destination square ("j9") is declined and
the board is unchanged. -/
theorem c3_witness :
    (validate_move concreteChessLib startCB "e2" "j9").2 = startCB ∧
    (validate_move concreteChessLib startCB "e2" "j9").1.legal = false :=
  ⟨(c3_validate_move_safe concreteChessLib (fun _ _ => rfl) startCB "e2" "j9").1,
   (c3_validate_move_safe concreteChessLib (fun _ _ => rfl) startCB "e2" "j9").2.1
     (Or.inr (by decide))⟩

/-- The knight move g1→f3 (squares 6 → 21), legal from the starting
position. -/
def nf3Move : CMove := ⟨6, 21, none⟩

/-- Claim C1 (divergence): for the legal opening move Nf3 (g1→f3),
`validate_move` reports `is_risky = true` — because `_is_move_risky`
queries `is_attacked_by(not board.turn, ...)` after the push, i.e. attack
by the side that just moved (White defends f3 with the e2 and g2 pawns) —
while the specified flag, attack on the destination by the opponent of the
side that just moved, is false (no black piece attacks f3).  The board is
reverted, as the claim also states. -/
theorem c1_risky_flag_divergence :
    (validate_move concreteChessLib startCB "g1" "f3").1.legal = true ∧
    (validate_move concreteChessLib startCB "g1" "f3").1.is_risky = true ∧
    (is_move_risky concreteChessLib startCB nf3Move).1 = true ∧
    spec_is_move_risky startPos nf3Move = false ∧
    (is_move_risky concreteChessLib startCB nf3Move).2 = startCB :=
  ⟨by decide, by decide, by decide, by decide, rfl⟩

end PromptWars
